import Mathlib

/-!
# Double or Nothing — verification of the wager settlement and statistics flow

Shallow embedding of the two server-side handlers of the repository:

* the settlement endpoint (`POST`/`determineResult`/`verifyTransaction`/
  `sendPayout` in the game route file), and
* the statistics accessor (`GET`/`POST`/`readStats`/`writeStats` in
  `src/app/api/stats/route.ts`).

External effects (the Solana RPC node, `Math.random()`, the custodial keypair
lookup, the transaction broadcast, and the Supabase backing store) are modelled
as explicit environment values supplied to the embedded functions; JavaScript
numbers are modelled as rationals.  Each handler additionally returns the list
of externally visible effects it performed (connection selection, on-chain
verification, random draw, payout hand-off), in order, so that "before any X"
properties of the spec can be stated about the effect trace.
-/

namespace DoubleOrNothing

/-- Game outcome, the `win | loss` string union in the source. -/
inductive GameResult where
  | win
  | loss
deriving DecidableEq, Repr

/-- The function `determineResult` from the game route: `Math.random()` is modelled as the
value `random` supplied by the environment; the player wins exactly when the
drawn value is strictly below 0.5. -/
def determineResult (random : ℚ) : GameResult :=
  if random < 0.5 then GameResult.win else GameResult.loss

/-- Outcome of `connection.getSignatureStatus(signature)` as the settlement
round observes it: the call threw, returned no status (`status.value` null), or
returned a status whose `err` field is truthy (`err = true`) or not. -/
inductive StatusLookup where
  | threw
  | notFound
  | found (err : Bool)
deriving DecidableEq, Repr

/-- Return shape of `verifyTransaction`. -/
structure VerifyResult where
  valid : Bool
  error : Option String := none
  actualAmount : Option ℚ := none
deriving DecidableEq, Repr

/-- The function `verifyTransaction` from the game route: a thrown lookup or a missing
status are trusted (fail-open) and echo the caller-supplied expected amount;
only a status with a truthy `err` is rejected. -/
def verifyTransaction (lookup : StatusLookup) (expectedAmount : ℚ) : VerifyResult :=
  match lookup with
  | StatusLookup.notFound => { valid := true, actualAmount := some expectedAmount }
  | StatusLookup.found e =>
      if e then { valid := false, error := some "Transaction failed on-chain" }
      else { valid := true, actualAmount := some expectedAmount }
  | StatusLookup.threw => { valid := true, actualAmount := some expectedAmount }

/-- Externally visible effects of one settlement round, in order. -/
inductive Event where
  | selectConnection
  | verifyTx (signature : String)
  | drawRandom (r : ℚ)
  | payoutTransfer (winner : String) (amount : ℚ)
deriving DecidableEq, Repr

/-- True exactly on a `drawRandom` event. -/
def Event.isDraw : Event → Bool
  | Event.drawRandom _ => true
  | _ => false

/-- Environment of one settlement round: the signature-status lookup result,
the `Math.random()` draw, whether `getBankKeypair()` yields a keypair, and the
outcome of broadcasting the payout transaction (`Except.ok signature` when
`sendRawTransaction` returns a signature, `Except.error message` when the
payout path throws). -/
structure GameEnv where
  statusLookup : StatusLookup
  random : ℚ
  bankKeyAvailable : Bool
  payoutBroadcast : Except String String

/-- The constant `LAMPORTS_PER_SOL` from `@solana/web3.js`. -/
def LAMPORTS_PER_SOL : ℚ := 1000000000

/-- Return shape of `sendPayout`. -/
structure PayoutResult where
  success : Bool
  signature : Option String := none
  error : Option String := none
deriving DecidableEq, Repr

/-- Lamport amount of the payout transfer instruction,
`Math.floor(amount * LAMPORTS_PER_SOL)` in the source. -/
def payoutLamports (amount : ℚ) : ℤ := ⌊amount * LAMPORTS_PER_SOL⌋

/-- The function `sendPayout` from the game route: builds a single transfer of
`payoutLamports amount` lamports from the custodial wallet to the winner and
submits it without waiting for confirmation; any thrown error is caught and
reported in the result.  Also yields the payout hand-off effect, recording the
winner address and the amount (in SOL) handed to the transfer. -/
def sendPayout (broadcast : Except String String) (winnerAddress : String)
    (amount : ℚ) : PayoutResult × List Event :=
  let result : PayoutResult :=
    match broadcast with
    | Except.ok sig => { success := true, signature := some sig }
    | Except.error e => { success := false, error := some e }
  (result, [Event.payoutTransfer winnerAddress amount])

/-- Parsed body of a settlement request; `none` models an absent field. -/
structure SettleRequest where
  signature : Option String
  playerWallet : Option String
  betAmount : Option ℚ
deriving DecidableEq, Repr

/-- JavaScript truthiness of an optional string: absent and empty are falsy. -/
def truthyStr : Option String → Bool
  | none => false
  | some s => !(s == "")

/-- JSON shape of a settlement response, together with its HTTP status code.
Fields absent from a given `NextResponse.json` call keep their defaults. -/
structure SettleResponse where
  status : Nat
  success : Bool := false
  result : Option GameResult := none
  betAmount : Option ℚ := none
  potentialWin : Option ℚ := none
  payoutPending : Bool := false
  payoutError : Option String := none
  payoutSignature : Option String := none
  message : Option String := none
  error : Option String := none
deriving DecidableEq, Repr

/-- The settlement `POST` handler from the game route, as a function of the
parsed request body and the environment, returning the response and the
ordered trace of external effects.  Mirrors the source: validate the three
inputs, select a connection, verify the transaction (fail-open), draw the
outcome, and on a win pay exactly double, reporting payout-path failures as
success-shaped responses. -/
def gamePOST (req : SettleRequest) (env : GameEnv) : SettleResponse × List Event :=
  if truthyStr req.signature = false then
    ({ status := 400, error := some "Missing transaction signature" }, [])
  else if truthyStr req.playerWallet = false then
    ({ status := 400, error := some "Missing player wallet address" }, [])
  else
    match req.betAmount with
    | none => ({ status := 400, error := some "Invalid bet amount" }, [])
    | some betAmount =>
      if betAmount ≤ 0 then
        ({ status := 400, error := some "Invalid bet amount" }, [])
      else
        let sig := req.signature.getD ""
        let playerWallet := req.playerWallet.getD ""
        let events1 := [Event.selectConnection, Event.verifyTx sig]
        let verification := verifyTransaction env.statusLookup betAmount
        if verification.valid = false then
          ({ status := 400,
             error := some (verification.error.getD "Transaction verification failed") },
           events1)
        else
          let result := determineResult env.random
          let potentialWin := betAmount * 2
          let events2 := events1 ++ [Event.drawRandom env.random]
          if result = GameResult.win then
            if env.bankKeyAvailable = false then
              ({ status := 200, success := true, result := some result,
                 betAmount := some betAmount, potentialWin := some potentialWin,
                 payoutPending := true,
                 message := some "Payout will be processed manually" }, events2)
            else
              let payout := sendPayout env.payoutBroadcast playerWallet potentialWin
              let events3 := events2 ++ payout.2
              if payout.1.success = false then
                ({ status := 200, success := true, result := some result,
                   betAmount := some betAmount, potentialWin := some potentialWin,
                   payoutError := payout.1.error,
                   message := some "You won! Payout will be processed manually." },
                 events3)
              else
                ({ status := 200, success := true, result := some result,
                   betAmount := some betAmount, potentialWin := some potentialWin,
                   payoutSignature := payout.1.signature }, events3)
          else
            ({ status := 200, success := true, result := some result,
               betAmount := some betAmount, potentialWin := some 0 }, events2)

/-! ## Statistics accessor (`src/app/api/stats/route.ts`)

The Supabase backing store is modelled as a `Store`: the optional singleton
`global_stats` row and the `game_history` table kept as a list in timestamp
order, newest first (`insert` adds at the head; the read in the source orders by
timestamp descending).  Backing-store failures are injected through explicit
error flags, one per storage call the source makes. -/

/-- One `game_history` row. -/
structure HistoryRow where
  result : GameResult
  amount : ℚ
  player_wallet : Option String
deriving DecidableEq, Repr

/-- The singleton `global_stats` row. -/
structure GlobalRow where
  total_bets : ℚ
  total_wagered : ℚ
  wins : ℚ
  losses : ℚ
deriving DecidableEq, Repr

/-- The backing store: optional singleton aggregate row plus the history
table, newest first. -/
structure Store where
  globalStats : Option GlobalRow
  history : List HistoryRow
deriving DecidableEq, Repr

/-- The record `GameHistoryItem` from the source. -/
structure GameHistoryItem where
  result : GameResult
  amount : ℚ
  playerWallet : Option String
deriving DecidableEq, Repr

/-- The record `Stats` from the source. -/
structure Stats where
  totalBets : ℚ
  totalWagered : ℚ
  wins : ℚ
  losses : ℚ
  gameHistory : List GameHistoryItem
deriving DecidableEq, Repr

/-- The record `defaultStats` from the source: the documented zero-valued defaults. -/
def defaultStats : Stats :=
  { totalBets := 0, totalWagered := 0, wins := 0, losses := 0, gameHistory := [] }

/-- Failure injection for one execution of `readStats`: an exception thrown
during the reads, a `global_stats` select error whose code is not `PGRST116`
(the no-rows code, which instead surfaces as `Store.globalStats = none`), or a
`game_history` select error. -/
structure ReadEnv where
  throws : Bool
  statsError : Bool
  historyError : Bool
deriving DecidableEq, Repr

/-- An error-free read environment. -/
def noReadError : ReadEnv := { throws := false, statsError := false, historyError := false }

/-- History row as the read maps it into a `GameHistoryItem`. -/
def toItem (row : HistoryRow) : GameHistoryItem :=
  { result := row.result, amount := row.amount, playerWallet := row.player_wallet }

/-- The function `readStats` from the source: on an exception or a `global_stats` error it
returns the defaults; a `game_history` error is logged and yields an empty
history; otherwise the newest 100 history rows are returned together with the
counters of the aggregate row (or the defaults when the singleton row is absent). -/
def readStats (env : ReadEnv) (store : Store) : Stats :=
  if env.throws then defaultStats
  else if env.statsError then defaultStats
  else
    let historyData := if env.historyError then [] else store.history.take 100
    let gameHistory := historyData.map toItem
    match store.globalStats with
    | some statsData =>
        { totalBets := statsData.total_bets, totalWagered := statsData.total_wagered,
          wins := statsData.wins, losses := statsData.losses, gameHistory := gameHistory }
    | none => { defaultStats with gameHistory := gameHistory }

/-- The function `writeStats` from the source: upserts the singleton `global_stats` row to
the absolute values carried in `stats`; a backing-store error is logged and
rethrown to the caller. -/
def writeStats (upsertError : Bool) (stats : Stats) (store : Store) : Except String Store :=
  if upsertError then Except.error "Failed to write stats"
  else
    let row : GlobalRow :=
      { total_bets := stats.totalBets, total_wagered := stats.totalWagered,
        wins := stats.wins, losses := stats.losses }
    Except.ok { store with globalStats := some row }

/-- Response of the statistics `GET` handler. -/
structure StatsGetResponse where
  status : Nat
  stats : Stats
deriving DecidableEq, Repr

/-- The statistics `GET` handler: reads the stats and returns them with the
history truncated to the last 20 games, always as a 200 response. -/
def statsGET (env : ReadEnv) (store : Store) : StatsGetResponse :=
  let stats := readStats env store
  { status := 200, stats := { stats with gameHistory := stats.gameHistory.take 20 } }

/-- Parsed body of a statistics write; `none` models an absent field. -/
structure StatsPostRequest where
  result : Option String
  amount : Option ℚ
  playerWallet : Option String
deriving DecidableEq, Repr

/-- JavaScript truthiness of an optional number: absent and zero are falsy. -/
def truthyNum : Option ℚ → Bool
  | none => false
  | some a => !(a == 0)

/-- Failure injection for one execution of the statistics `POST` handler: the
read before the update, the `game_history` insert, the `global_stats` upsert,
and the read after the update. -/
structure StatsWriteEnv where
  read1 : ReadEnv
  historyInsertError : Bool
  upsertError : Bool
  read2 : ReadEnv
deriving DecidableEq, Repr

/-- An error-free write environment. -/
def noWriteError : StatsWriteEnv :=
  { read1 := noReadError, historyInsertError := false, upsertError := false,
    read2 := noReadError }

/-- Response of the statistics `POST` handler. -/
structure StatsPostResponse where
  status : Nat
  success : Bool := false
  stats : Option Stats := none
  error : Option String := none
deriving DecidableEq, Repr

/-- The aggregate record the statistics write computes from the stats it read:
`updatedStats` in the source. -/
def updatedStats (stats : Stats) (result : GameResult) (amount : ℚ) : Stats :=
  { totalBets := stats.totalBets + 1,
    totalWagered := stats.totalWagered + amount,
    wins := stats.wins + (if result = GameResult.win then 1 else 0),
    losses := stats.losses + (if result = GameResult.loss then 1 else 0),
    gameHistory := stats.gameHistory }

/-- The statistics `POST` handler from the source, returning the response and
the resulting store.  Mirrors the source: validate (`!result || !amount ||
(result !== win && result !== loss)`), read the current stats, insert the
history row (a failure is logged and swallowed), upsert the incremented
aggregates (a failure is propagated as a 500), then read back and return. -/
def statsPOST (req : StatsPostRequest) (env : StatsWriteEnv) (store : Store) :
    StatsPostResponse × Store :=
  if truthyStr req.result = false ∨ truthyNum req.amount = false ∨
      (req.result ≠ some "win" ∧ req.result ≠ some "loss") then
    ({ status := 400, error := some "Invalid request data" }, store)
  else
    let result := if req.result = some "win" then GameResult.win else GameResult.loss
    let amount := req.amount.getD 0
    let stats := readStats env.read1 store
    let newRow : HistoryRow :=
      { result := result, amount := amount,
        player_wallet := if truthyStr req.playerWallet then req.playerWallet else none }
    let store1 :=
      if env.historyInsertError then store
      else { store with history := newRow :: store.history }
    match writeStats env.upsertError (updatedStats stats result amount) store1 with
    | Except.error e => ({ status := 500, error := some e }, store1)
    | Except.ok store2 =>
        let finalStats := readStats env.read2 store2
        ({ status := 200, success := true, stats := some finalStats }, store2)

/-! ## Concurrent statistics writes

The source performs no application-level serialization: each write is the
sequence of storage calls (read `global_stats`, insert the history row, upsert
`global_stats` to the absolute values computed from its own earlier read).
Each storage call is atomic at the store; two concurrent writers may interleave
between calls.  `writerStep` is one storage call of an error-free write,
exactly as `statsPOST` performs it. -/

/-- Input of one concurrent statistics write (validated round data). -/
structure WriterInput where
  result : GameResult
  amount : ℚ
deriving DecidableEq, Repr

/-- Progress of one in-flight statistics write: `pc = 0` before its read,
`1` before its history insert, `2` before its upsert, `3` done.  `captured`
holds the stats its read returned (meaningful once `pc ≥ 1`). -/
structure WriterState where
  input : WriterInput
  pc : Nat
  captured : Stats
deriving DecidableEq, Repr

/-- A writer that has not performed any storage call yet. -/
def initWriter (input : WriterInput) : WriterState :=
  { input := input, pc := 0, captured := defaultStats }

/-- One atomic storage call of an error-free statistics write, mirroring the
corresponding call in `statsPOST`. -/
def writerStep (w : WriterState) (store : Store) : WriterState × Store :=
  if w.pc = 0 then
    ({ w with pc := 1, captured := readStats noReadError store }, store)
  else if w.pc = 1 then
    let newRow : HistoryRow :=
      { result := w.input.result, amount := w.input.amount, player_wallet := none }
    ({ w with pc := 2 }, { store with history := newRow :: store.history })
  else if w.pc = 2 then
    match writeStats false (updatedStats w.captured w.input.result w.input.amount) store with
    | Except.ok store2 => ({ w with pc := 3 }, store2)
    | Except.error _ => ({ w with pc := 3 }, store)
  else (w, store)

/-- Run two writers under a schedule: `true` steps writer 1, `false` steps
writer 2. -/
def runSched (w1 w2 : WriterState) (store : Store) : List Bool → Store
  | [] => store
  | b :: rest =>
    if b then
      let p := writerStep w1 store
      runSched p.1 w2 p.2 rest
    else
      let p := writerStep w2 store
      runSched w1 p.1 p.2 rest

/-- Two concurrent statistics writes executed under a schedule. -/
def runTwoWrites (i1 i2 : WriterInput) (sched : List Bool) (store : Store) : Store :=
  runSched (initWriter i1) (initWriter i2) store sched

/-- A schedule is a complete interleaving of the two three-call writes. -/
def completeSched (sched : List Bool) : Prop :=
  sched.length = 6 ∧ sched.count true = 3

/-- The zero starting state: the singleton aggregate row holding all zeros (as
installed by the setup SQL of the repository) and no history. -/
def zeroStore : Store :=
  { globalStats := some { total_bets := 0, total_wagered := 0, wins := 0, losses := 0 },
    history := [] }

/-! ## Helper lemmas -/

/-- Verification accepts and echoes the caller-supplied amount whenever the
status lookup does not return a failure-marking status. -/
lemma verifyTransaction_of_not_failed (sl : StatusLookup) (a : ℚ)
    (h : sl ≠ StatusLookup.found true) :
    (verifyTransaction sl a).valid = true ∧
      (verifyTransaction sl a).actualAmount = some a := by
  cases sl with
  | threw => simp [verifyTransaction]
  | notFound => simp [verifyTransaction]
  | found e =>
      cases e with
      | false => simp [verifyTransaction]
      | true => exact absurd rfl h

/-- The settlement handler on a validated request whose status lookup marks
failure: a 400 response before any draw or payout. -/
lemma gamePOST_rejected (req : SettleRequest) (env : GameEnv) (a : ℚ)
    (hsig : truthyStr req.signature = true)
    (hpw : truthyStr req.playerWallet = true)
    (hamt : req.betAmount = some a) (hpos : 0 < a)
    (h : env.statusLookup = StatusLookup.found true) :
    gamePOST req env =
      ({ status := 400, error := some "Transaction failed on-chain" },
       [Event.selectConnection, Event.verifyTx (req.signature.getD "")]) := by
  simp [gamePOST, hamt, hsig, hpw, not_le.2 hpos, h, verifyTransaction]

/-- Full case tree of the settlement handler once the three inputs validate
and the verification accepts. -/
lemma gamePOST_after_verify (req : SettleRequest) (env : GameEnv) (a : ℚ)
    (hsig : truthyStr req.signature = true)
    (hpw : truthyStr req.playerWallet = true)
    (hamt : req.betAmount = some a) (hpos : 0 < a)
    (hver : (verifyTransaction env.statusLookup a).valid = true) :
    gamePOST req env =
      (if env.random < 0.5 then
        (if env.bankKeyAvailable = false then
          ({ status := 200, success := true, result := some GameResult.win,
             betAmount := some a, potentialWin := some (a * 2), payoutPending := true,
             message := some "Payout will be processed manually" },
           [Event.selectConnection, Event.verifyTx (req.signature.getD ""),
            Event.drawRandom env.random])
         else
          match env.payoutBroadcast with
          | Except.error e =>
              ({ status := 200, success := true, result := some GameResult.win,
                 betAmount := some a, potentialWin := some (a * 2),
                 payoutError := some e,
                 message := some "You won! Payout will be processed manually." },
               [Event.selectConnection, Event.verifyTx (req.signature.getD ""),
                Event.drawRandom env.random,
                Event.payoutTransfer (req.playerWallet.getD "") (a * 2)])
          | Except.ok s =>
              ({ status := 200, success := true, result := some GameResult.win,
                 betAmount := some a, potentialWin := some (a * 2),
                 payoutSignature := some s },
               [Event.selectConnection, Event.verifyTx (req.signature.getD ""),
                Event.drawRandom env.random,
                Event.payoutTransfer (req.playerWallet.getD "") (a * 2)]))
       else
        ({ status := 200, success := true, result := some GameResult.loss,
           betAmount := some a, potentialWin := some 0 },
         [Event.selectConnection, Event.verifyTx (req.signature.getD ""),
          Event.drawRandom env.random])) := by
  by_cases hr : env.random < (0.5 : ℚ)
  · rcases hbk : env.bankKeyAvailable with _ | _
    · simp [gamePOST, hamt, hsig, hpw, not_le.2 hpos, hver, determineResult, hr, hbk]
    · rcases hpb : env.payoutBroadcast with e | s <;>
        simp [gamePOST, hamt, hsig, hpw, not_le.2 hpos, hver, determineResult, hr,
          hbk, hpb, sendPayout]
  · simp [gamePOST, hamt, hsig, hpw, not_le.2 hpos, hver, determineResult, hr]

/-! ## Claims about the settlement endpoint -/

/-- C4: a settlement request missing the transfer reference, missing the
bettor address, or whose wager amount is missing or non-positive is rejected
with a 400 client error and an empty effect trace: no RPC connection is
selected, no verification is performed, no outcome is drawn, and no payout is
handed off. -/
theorem settlement_input_validation (req : SettleRequest) (env : GameEnv)
    (h : truthyStr req.signature = false ∨ truthyStr req.playerWallet = false ∨
      req.betAmount = none ∨ ∃ a, req.betAmount = some a ∧ a ≤ 0) :
    (gamePOST req env).1.status = 400 ∧ (gamePOST req env).2 = [] := by
  rcases h with h | h | h | ⟨a, ha, hle⟩
  · simp [gamePOST, h]
  · rcases hs : truthyStr req.signature with _ | _ <;> simp [gamePOST, hs, h]
  · rcases hs : truthyStr req.signature with _ | _ <;>
      rcases hw : truthyStr req.playerWallet with _ | _ <;>
        simp [gamePOST, hs, hw, h]
  · rcases hs : truthyStr req.signature with _ | _ <;>
      rcases hw : truthyStr req.playerWallet with _ | _ <;>
        simp [gamePOST, hs, hw, ha, hle]

/-- C4 witness: the concrete request with amount 0 is rejected with an empty
trace. -/
theorem settlement_input_validation_witness :
    (gamePOST ⟨some "sig", some "wallet", some 0⟩
        ⟨StatusLookup.notFound, 0.3, true, Except.ok "p"⟩).1.status = 400 ∧
    (gamePOST ⟨some "sig", some "wallet", some 0⟩
        ⟨StatusLookup.notFound, 0.3, true, Except.ok "p"⟩).2 = [] :=
  settlement_input_validation _ _ (Or.inr (Or.inr (Or.inr ⟨0, rfl, le_refl 0⟩)))

/-- C1: for a settlement request carrying a transfer reference, a bettor
address and a positive wager amount, and whose status lookup does not report a
failed transfer (the verification accepts), the response reports exactly one
outcome in win/loss; the payout field of the response is exactly twice the
wager on a win and 0 on a loss; and every payout hand-off in the effect trace
carries exactly twice the wager. -/
theorem settlement_double_or_nothing (req : SettleRequest) (env : GameEnv) (a : ℚ)
    (hsig : truthyStr req.signature = true)
    (hpw : truthyStr req.playerWallet = true)
    (hamt : req.betAmount = some a) (hpos : 0 < a)
    (hver : (verifyTransaction env.statusLookup a).valid = true) :
    ((gamePOST req env).1.result = some GameResult.win ∨
      (gamePOST req env).1.result = some GameResult.loss) ∧
    ((gamePOST req env).1.result = some GameResult.win →
      (gamePOST req env).1.potentialWin = some (a * 2)) ∧
    ((gamePOST req env).1.result = some GameResult.loss →
      (gamePOST req env).1.potentialWin = some 0) ∧
    (∀ w amt, Event.payoutTransfer w amt ∈ (gamePOST req env).2 → amt = a * 2) := by
  rw [gamePOST_after_verify req env a hsig hpw hamt hpos hver]
  by_cases hr : env.random < (0.5 : ℚ)
  · rcases env.bankKeyAvailable with _ | _
    · simp [hr]
    · rcases env.payoutBroadcast with e | s <;> simp [hr]
  · simp [hr]

/-- C1 witness: a concrete winning round pays exactly double both in the
response and in the payout hand-off. -/
theorem settlement_double_or_nothing_witness :
    ((gamePOST ⟨some "sig", some "wallet", some 1⟩
        ⟨StatusLookup.notFound, 0.3, true, Except.ok "p"⟩).1.result = some GameResult.win ∨
      (gamePOST ⟨some "sig", some "wallet", some 1⟩
        ⟨StatusLookup.notFound, 0.3, true, Except.ok "p"⟩).1.result = some GameResult.loss) ∧
    ((gamePOST ⟨some "sig", some "wallet", some 1⟩
        ⟨StatusLookup.notFound, 0.3, true, Except.ok "p"⟩).1.result = some GameResult.win →
      (gamePOST ⟨some "sig", some "wallet", some 1⟩
        ⟨StatusLookup.notFound, 0.3, true, Except.ok "p"⟩).1.potentialWin = some (1 * 2)) ∧
    ((gamePOST ⟨some "sig", some "wallet", some 1⟩
        ⟨StatusLookup.notFound, 0.3, true, Except.ok "p"⟩).1.result = some GameResult.loss →
      (gamePOST ⟨some "sig", some "wallet", some 1⟩
        ⟨StatusLookup.notFound, 0.3, true, Except.ok "p"⟩).1.potentialWin = some 0) ∧
    (∀ w amt, Event.payoutTransfer w amt ∈
        (gamePOST ⟨some "sig", some "wallet", some 1⟩
          ⟨StatusLookup.notFound, 0.3, true, Except.ok "p"⟩).2 → amt = 1 * 2) :=
  settlement_double_or_nothing _ _ 1 (by decide) (by decide) rfl (by norm_num) (by decide)

/-- C2: once the three inputs validate, the round is rejected with a 400
client error exactly when the status lookup returns a failure-marking status;
in that case the trace holds no random draw and no payout hand-off.  When the
lookup finds no status, throws, or finds a non-failed status, verification
accepts echoing the caller-supplied amount and the round proceeds: a success
response carrying the caller-supplied wager, with an outcome drawn. -/
theorem settlement_verification_gate (req : SettleRequest) (env : GameEnv) (a : ℚ)
    (hsig : truthyStr req.signature = true)
    (hpw : truthyStr req.playerWallet = true)
    (hamt : req.betAmount = some a) (hpos : 0 < a) :
    ((gamePOST req env).1.status = 400 ↔ env.statusLookup = StatusLookup.found true) ∧
    (env.statusLookup = StatusLookup.found true →
      (gamePOST req env).1.error = some "Transaction failed on-chain" ∧
      (∀ r, Event.drawRandom r ∉ (gamePOST req env).2) ∧
      (∀ w amt, Event.payoutTransfer w amt ∉ (gamePOST req env).2)) ∧
    (env.statusLookup ≠ StatusLookup.found true →
      (verifyTransaction env.statusLookup a).valid = true ∧
      (verifyTransaction env.statusLookup a).actualAmount = some a ∧
      (gamePOST req env).1.success = true ∧
      (gamePOST req env).1.betAmount = some a ∧
      Event.drawRandom env.random ∈ (gamePOST req env).2) := by
  by_cases hsl : env.statusLookup = StatusLookup.found true
  · rw [gamePOST_rejected req env a hsig hpw hamt hpos hsl]
    simp [hsl]
  · obtain ⟨hver, hecho⟩ := verifyTransaction_of_not_failed env.statusLookup a hsl
    rw [gamePOST_after_verify req env a hsig hpw hamt hpos hver]
    by_cases hr : env.random < (0.5 : ℚ)
    · rcases env.bankKeyAvailable with _ | _
      · simp [hr, hsl, hver, hecho]
      · rcases env.payoutBroadcast with e | s <;> simp [hr, hsl, hver, hecho]
    · simp [hr, hsl, hver, hecho]

/-- C2 witness: a concrete validated round whose status lookup finds nothing
proceeds with the caller-supplied amount. -/
theorem settlement_verification_gate_witness :
    ((gamePOST ⟨some "sig", some "wallet", some 1⟩
        ⟨StatusLookup.notFound, 0.3, true, Except.ok "p"⟩).1.status = 400 ↔
      StatusLookup.notFound = StatusLookup.found true) ∧
    (StatusLookup.notFound = StatusLookup.found true →
      (gamePOST ⟨some "sig", some "wallet", some 1⟩
        ⟨StatusLookup.notFound, 0.3, true, Except.ok "p"⟩).1.error =
          some "Transaction failed on-chain" ∧
      (∀ r, Event.drawRandom r ∉ (gamePOST ⟨some "sig", some "wallet", some 1⟩
        ⟨StatusLookup.notFound, 0.3, true, Except.ok "p"⟩).2) ∧
      (∀ w amt, Event.payoutTransfer w amt ∉ (gamePOST ⟨some "sig", some "wallet", some 1⟩
        ⟨StatusLookup.notFound, 0.3, true, Except.ok "p"⟩).2)) ∧
    (StatusLookup.notFound ≠ StatusLookup.found true →
      (verifyTransaction StatusLookup.notFound 1).valid = true ∧
      (verifyTransaction StatusLookup.notFound 1).actualAmount = some 1 ∧
      (gamePOST ⟨some "sig", some "wallet", some 1⟩
        ⟨StatusLookup.notFound, 0.3, true, Except.ok "p"⟩).1.success = true ∧
      (gamePOST ⟨some "sig", some "wallet", some 1⟩
        ⟨StatusLookup.notFound, 0.3, true, Except.ok "p"⟩).1.betAmount = some 1 ∧
      Event.drawRandom 0.3 ∈ (gamePOST ⟨some "sig", some "wallet", some 1⟩
        ⟨StatusLookup.notFound, 0.3, true, Except.ok "p"⟩).2) :=
  settlement_verification_gate ⟨some "sig", some "wallet", some 1⟩
    ⟨StatusLookup.notFound, 0.3, true, Except.ok "p"⟩ 1
    (by decide) (by decide) rfl (by norm_num)

/-- C3: a winning round (validated, verification accepted, draw below 0.5)
always yields a 200 success response reporting the win, whatever the payout
path does; the three payout situations are discriminated by the response
fields: key unavailable gives `payoutPending`, a failed broadcast gives
`payoutError`, a successful broadcast gives `payoutSignature` — never a hard
failure status. -/
theorem settlement_win_degraded_success (req : SettleRequest) (env : GameEnv) (a : ℚ)
    (hsig : truthyStr req.signature = true)
    (hpw : truthyStr req.playerWallet = true)
    (hamt : req.betAmount = some a) (hpos : 0 < a)
    (hver : (verifyTransaction env.statusLookup a).valid = true)
    (hwin : env.random < 0.5) :
    (gamePOST req env).1.status = 200 ∧
    (gamePOST req env).1.success = true ∧
    (gamePOST req env).1.result = some GameResult.win ∧
    (env.bankKeyAvailable = false →
      (gamePOST req env).1.payoutPending = true ∧
      (gamePOST req env).1.payoutError = none ∧
      (gamePOST req env).1.payoutSignature = none) ∧
    (∀ e, env.bankKeyAvailable = true → env.payoutBroadcast = Except.error e →
      (gamePOST req env).1.payoutPending = false ∧
      (gamePOST req env).1.payoutError = some e ∧
      (gamePOST req env).1.payoutSignature = none) ∧
    (∀ s, env.bankKeyAvailable = true → env.payoutBroadcast = Except.ok s →
      (gamePOST req env).1.payoutPending = false ∧
      (gamePOST req env).1.payoutError = none ∧
      (gamePOST req env).1.payoutSignature = some s) := by
  rw [gamePOST_after_verify req env a hsig hpw hamt hpos hver]
  rcases hbk : env.bankKeyAvailable with _ | _
  · simp [hwin, hbk]
  · rcases hpb : env.payoutBroadcast with e | s <;> simp [hwin, hbk, hpb]

/-- C3 witness: a concrete winning round with the custodial key unavailable is
still a 200 success flagged as payout pending. -/
theorem settlement_win_degraded_success_witness :
    (gamePOST ⟨some "sig", some "wallet", some 1⟩
        ⟨StatusLookup.notFound, 0.3, false, Except.error "no funds"⟩).1.status = 200 ∧
    (gamePOST ⟨some "sig", some "wallet", some 1⟩
        ⟨StatusLookup.notFound, 0.3, false, Except.error "no funds"⟩).1.success = true ∧
    (gamePOST ⟨some "sig", some "wallet", some 1⟩
        ⟨StatusLookup.notFound, 0.3, false, Except.error "no funds"⟩).1.result =
      some GameResult.win ∧
    ((false : Bool) = false →
      (gamePOST ⟨some "sig", some "wallet", some 1⟩
        ⟨StatusLookup.notFound, 0.3, false, Except.error "no funds"⟩).1.payoutPending = true ∧
      (gamePOST ⟨some "sig", some "wallet", some 1⟩
        ⟨StatusLookup.notFound, 0.3, false, Except.error "no funds"⟩).1.payoutError = none ∧
      (gamePOST ⟨some "sig", some "wallet", some 1⟩
        ⟨StatusLookup.notFound, 0.3, false, Except.error "no funds"⟩).1.payoutSignature = none) ∧
    (∀ e, (false : Bool) = true →
        (Except.error "no funds" : Except String String) = Except.error e →
      (gamePOST ⟨some "sig", some "wallet", some 1⟩
        ⟨StatusLookup.notFound, 0.3, false, Except.error "no funds"⟩).1.payoutPending = false ∧
      (gamePOST ⟨some "sig", some "wallet", some 1⟩
        ⟨StatusLookup.notFound, 0.3, false, Except.error "no funds"⟩).1.payoutError = some e ∧
      (gamePOST ⟨some "sig", some "wallet", some 1⟩
        ⟨StatusLookup.notFound, 0.3, false, Except.error "no funds"⟩).1.payoutSignature = none) ∧
    (∀ s, (false : Bool) = true →
        (Except.error "no funds" : Except String String) = Except.ok s →
      (gamePOST ⟨some "sig", some "wallet", some 1⟩
        ⟨StatusLookup.notFound, 0.3, false, Except.error "no funds"⟩).1.payoutPending = false ∧
      (gamePOST ⟨some "sig", some "wallet", some 1⟩
        ⟨StatusLookup.notFound, 0.3, false, Except.error "no funds"⟩).1.payoutError = none ∧
      (gamePOST ⟨some "sig", some "wallet", some 1⟩
        ⟨StatusLookup.notFound, 0.3, false, Except.error "no funds"⟩).1.payoutSignature = some s) :=
  settlement_win_degraded_success ⟨some "sig", some "wallet", some 1⟩
    ⟨StatusLookup.notFound, 0.3, false, Except.error "no funds"⟩ 1
    (by decide) (by decide) rfl (by norm_num) (by decide) (by norm_num)

/-- C5: a settled round (validated, verification accepted) draws exactly one
random value, the one supplied by the environment as the `Math.random()` call
in the unit interval, and the outcome is a win precisely when that value is
strictly below 0.5, a loss otherwise. -/
theorem settlement_single_fair_draw (req : SettleRequest) (env : GameEnv) (a : ℚ)
    (hsig : truthyStr req.signature = true)
    (hpw : truthyStr req.playerWallet = true)
    (hamt : req.betAmount = some a) (hpos : 0 < a)
    (hver : (verifyTransaction env.statusLookup a).valid = true)
    (h0 : 0 ≤ env.random) (h1 : env.random < 1) :
    (gamePOST req env).2.countP Event.isDraw = 1 ∧
    Event.drawRandom env.random ∈ (gamePOST req env).2 ∧
    ((gamePOST req env).1.result = some GameResult.win ↔ env.random < 0.5) ∧
    ((gamePOST req env).1.result = some GameResult.loss ↔ ¬ env.random < 0.5) := by
  rw [gamePOST_after_verify req env a hsig hpw hamt hpos hver]
  by_cases hr : env.random < (0.5 : ℚ)
  · rcases env.bankKeyAvailable with _ | _
    · simp [hr, Event.isDraw, List.countP_cons]
    · rcases env.payoutBroadcast with e | s <;> simp [hr, Event.isDraw, List.countP_cons]
  · simp [hr, Event.isDraw, List.countP_cons]

/-- C5 witness: a concrete losing round draws once, at 0.7, and reports the
loss. -/
theorem settlement_single_fair_draw_witness :
    (gamePOST ⟨some "sig", some "wallet", some 1⟩
        ⟨StatusLookup.notFound, 0.7, true, Except.ok "p"⟩).2.countP Event.isDraw = 1 ∧
    Event.drawRandom 0.7 ∈ (gamePOST ⟨some "sig", some "wallet", some 1⟩
        ⟨StatusLookup.notFound, 0.7, true, Except.ok "p"⟩).2 ∧
    ((gamePOST ⟨some "sig", some "wallet", some 1⟩
        ⟨StatusLookup.notFound, 0.7, true, Except.ok "p"⟩).1.result =
      some GameResult.win ↔ (0.7 : ℚ) < 0.5) ∧
    ((gamePOST ⟨some "sig", some "wallet", some 1⟩
        ⟨StatusLookup.notFound, 0.7, true, Except.ok "p"⟩).1.result =
      some GameResult.loss ↔ ¬ (0.7 : ℚ) < 0.5) :=
  settlement_single_fair_draw ⟨some "sig", some "wallet", some 1⟩
    ⟨StatusLookup.notFound, 0.7, true, Except.ok "p"⟩ 1
    (by decide) (by decide) rfl (by norm_num) (by decide) (by norm_num) (by norm_num)

/-! ## Claims about the statistics accessor -/

/-- C6: an accepted, error-free statistics write increments `totalBets` by 1,
`totalWagered` by the amount of the round, and exactly the matching win/loss
counter, and prepends one history row; in particular, a win of 0.2 from the
zero state yields the aggregates 1/0.2/1/0 with newest history entry
win/0.2. -/
theorem stats_write_increments (req : StatsPostRequest) (store : Store) (a : ℚ)
    (hres : req.result = some "win" ∨ req.result = some "loss")
    (hamt : req.amount = some a) (ha : a ≠ 0) :
    ((statsPOST req noWriteError store).1.status = 200 ∧
     (statsPOST req noWriteError store).1.success = true ∧
     (statsPOST req noWriteError store).2.globalStats = some
       { total_bets := (readStats noReadError store).totalBets + 1,
         total_wagered := (readStats noReadError store).totalWagered + a,
         wins := (readStats noReadError store).wins +
           (if req.result = some "win" then 1 else 0),
         losses := (readStats noReadError store).losses +
           (if req.result = some "win" then 0 else 1) } ∧
     (statsPOST req noWriteError store).2.history =
       { result := if req.result = some "win" then GameResult.win else GameResult.loss,
         amount := a,
         player_wallet := if truthyStr req.playerWallet then req.playerWallet else none }
       :: store.history) ∧
    (statsPOST ⟨some "win", some 0.2, none⟩ noWriteError zeroStore).1.stats = some
      { totalBets := 1, totalWagered := 0.2, wins := 1, losses := 0,
        gameHistory := [{ result := GameResult.win, amount := 0.2, playerWallet := none }] } := by
  constructor
  · rcases hres with hres | hres <;>
      simp [statsPOST, noWriteError, hres, hamt, truthyStr, truthyNum, ha,
        writeStats, updatedStats]
  · norm_num [statsPOST, noWriteError, noReadError, zeroStore, truthyStr, truthyNum,
      writeStats, updatedStats, readStats, toItem, defaultStats]
    rw [if_neg (by decide : ¬ ("win" : String) = "")]
    simp

/-- C6 witness: the concrete win of 0.2 from the zero state. -/
theorem stats_write_increments_witness :
    ((statsPOST ⟨some "win", some 0.2, none⟩ noWriteError zeroStore).1.status = 200 ∧
     (statsPOST ⟨some "win", some 0.2, none⟩ noWriteError zeroStore).1.success = true ∧
     (statsPOST ⟨some "win", some 0.2, none⟩ noWriteError zeroStore).2.globalStats = some
       { total_bets := (readStats noReadError zeroStore).totalBets + 1,
         total_wagered := (readStats noReadError zeroStore).totalWagered + 0.2,
         wins := (readStats noReadError zeroStore).wins +
           (if (some "win" : Option String) = some "win" then 1 else 0),
         losses := (readStats noReadError zeroStore).losses +
           (if (some "win" : Option String) = some "win" then 0 else 1) } ∧
     (statsPOST ⟨some "win", some 0.2, none⟩ noWriteError zeroStore).2.history =
       { result := if (some "win" : Option String) = some "win"
           then GameResult.win else GameResult.loss,
         amount := 0.2,
         player_wallet := if truthyStr none then none else none } :: zeroStore.history) ∧
    (statsPOST ⟨some "win", some 0.2, none⟩ noWriteError zeroStore).1.stats = some
      { totalBets := 1, totalWagered := 0.2, wins := 1, losses := 0,
        gameHistory := [{ result := GameResult.win, amount := 0.2, playerWallet := none }] } :=
  stats_write_increments ⟨some "win", some 0.2, none⟩ zeroStore 0.2
    (Or.inl rfl) rfl (by norm_num)

/-- C7: within one statistics write, a failed history insert is swallowed (the
aggregate upsert still happens and the call returns 200), while a failed
aggregate upsert is propagated as a 500 server error even though the history
row has already been appended and stays appended. -/
theorem stats_write_failure_paths (req : StatsPostRequest) (store : Store) (a : ℚ)
    (hres : req.result = some "win" ∨ req.result = some "loss")
    (hamt : req.amount = some a) (ha : a ≠ 0) :
    ((statsPOST req ⟨noReadError, true, false, noReadError⟩ store).1.status = 200 ∧
     (statsPOST req ⟨noReadError, true, false, noReadError⟩ store).1.success = true ∧
     (statsPOST req ⟨noReadError, true, false, noReadError⟩ store).2.history =
       store.history ∧
     (statsPOST req ⟨noReadError, true, false, noReadError⟩ store).2.globalStats = some
       { total_bets := (readStats noReadError store).totalBets + 1,
         total_wagered := (readStats noReadError store).totalWagered + a,
         wins := (readStats noReadError store).wins +
           (if req.result = some "win" then 1 else 0),
         losses := (readStats noReadError store).losses +
           (if req.result = some "win" then 0 else 1) }) ∧
    ((statsPOST req ⟨noReadError, false, true, noReadError⟩ store).1.status = 500 ∧
     (statsPOST req ⟨noReadError, false, true, noReadError⟩ store).1.success = false ∧
     (statsPOST req ⟨noReadError, false, true, noReadError⟩ store).2.globalStats =
       store.globalStats ∧
     (statsPOST req ⟨noReadError, false, true, noReadError⟩ store).2.history =
       { result := if req.result = some "win" then GameResult.win else GameResult.loss,
         amount := a,
         player_wallet := if truthyStr req.playerWallet then req.playerWallet else none }
       :: store.history) := by
  rcases hres with hres | hres <;>
    simp [statsPOST, hres, hamt, truthyStr, truthyNum, ha, writeStats, updatedStats]

/-- C7 witness: the two failure paths at a concrete win of 0.2 from the zero
state. -/
theorem stats_write_failure_paths_witness :
    ((statsPOST ⟨some "win", some 0.2, none⟩
        ⟨noReadError, true, false, noReadError⟩ zeroStore).1.status = 200 ∧
     (statsPOST ⟨some "win", some 0.2, none⟩
        ⟨noReadError, true, false, noReadError⟩ zeroStore).1.success = true ∧
     (statsPOST ⟨some "win", some 0.2, none⟩
        ⟨noReadError, true, false, noReadError⟩ zeroStore).2.history = zeroStore.history ∧
     (statsPOST ⟨some "win", some 0.2, none⟩
        ⟨noReadError, true, false, noReadError⟩ zeroStore).2.globalStats = some
       { total_bets := (readStats noReadError zeroStore).totalBets + 1,
         total_wagered := (readStats noReadError zeroStore).totalWagered + 0.2,
         wins := (readStats noReadError zeroStore).wins +
           (if (some "win" : Option String) = some "win" then 1 else 0),
         losses := (readStats noReadError zeroStore).losses +
           (if (some "win" : Option String) = some "win" then 0 else 1) }) ∧
    ((statsPOST ⟨some "win", some 0.2, none⟩
        ⟨noReadError, false, true, noReadError⟩ zeroStore).1.status = 500 ∧
     (statsPOST ⟨some "win", some 0.2, none⟩
        ⟨noReadError, false, true, noReadError⟩ zeroStore).1.success = false ∧
     (statsPOST ⟨some "win", some 0.2, none⟩
        ⟨noReadError, false, true, noReadError⟩ zeroStore).2.globalStats =
       zeroStore.globalStats ∧
     (statsPOST ⟨some "win", some 0.2, none⟩
        ⟨noReadError, false, true, noReadError⟩ zeroStore).2.history =
       { result := if (some "win" : Option String) = some "win"
           then GameResult.win else GameResult.loss,
         amount := 0.2,
         player_wallet := if truthyStr none then none else none } :: zeroStore.history) :=
  stats_write_failure_paths ⟨some "win", some 0.2, none⟩ zeroStore 0.2
    (Or.inl rfl) rfl (by norm_num)

/-- An optional string is falsy exactly when absent or empty. -/
lemma truthyStr_eq_false_iff (o : Option String) :
    truthyStr o = false ↔ o = none ∨ o = some "" := by
  cases o with
  | none => simp [truthyStr]
  | some s => simp [truthyStr]

/-- An optional number is falsy exactly when absent or zero. -/
lemma truthyNum_eq_false_iff (o : Option ℚ) :
    truthyNum o = false ↔ o = none ∨ o = some 0 := by
  cases o with
  | none => simp [truthyNum]
  | some a => simp [truthyNum]

/-- The statistics-write validation condition of the source, restated on the
request fields. -/
lemma statsReject_iff (req : StatsPostRequest) :
    (truthyStr req.result = false ∨ truthyNum req.amount = false ∨
      (req.result ≠ some "win" ∧ req.result ≠ some "loss")) ↔
    ((req.result ≠ some "win" ∧ req.result ≠ some "loss") ∨
      req.amount = none ∨ req.amount = some 0) := by
  rw [truthyStr_eq_false_iff, truthyNum_eq_false_iff]
  constructor
  · rintro (h | h | h)
    · refine Or.inl ?_
      rcases h with h | h <;> rw [h] <;> exact ⟨by simp, by simp⟩
    · exact Or.inr h
    · exact Or.inl h
  · rintro (h | h)
    · exact Or.inr (Or.inr h)
    · exact Or.inr (Or.inl h)

/-- C9 counterexample: a write whose outcome is `win` and whose amount is
present (but zero) is still rejected with a 400, refuting "every request whose
outcome is in win/loss and whose amount is present passes input validation". -/
theorem stats_write_validation_counterexample :
    (statsPOST ⟨some "win", some 0, none⟩ noWriteError zeroStore).1.status = 400 ∧
    (some (0 : ℚ) ≠ (none : Option ℚ)) := by
  constructor
  · simp [statsPOST, truthyNum]
  · simp

/-- C9 (amended): the statistics write is rejected with a 400 client error
precisely when the outcome is not exactly `win` or `loss`, or the amount is
absent or zero (JavaScript-falsy); a rejected write leaves the store
untouched. -/
theorem stats_write_validation (req : StatsPostRequest) (env : StatsWriteEnv)
    (store : Store) :
    ((statsPOST req env store).1.status = 400 ↔
      ((req.result ≠ some "win" ∧ req.result ≠ some "loss") ∨
        req.amount = none ∨ req.amount = some 0)) ∧
    ((statsPOST req env store).1.status = 400 → (statsPOST req env store).2 = store) := by
  by_cases h : truthyStr req.result = false ∨ truthyNum req.amount = false ∨
      (req.result ≠ some "win" ∧ req.result ≠ some "loss")
  · have hpost : statsPOST req env store =
        ({ status := 400, error := some "Invalid request data" }, store) := by
      simp only [statsPOST]
      rw [if_pos h]
    rw [hpost]
    simp [(statsReject_iff req).mp h]
  · have hpost := h
    rw [statsReject_iff] at hpost
    simp only [statsPOST]
    rw [if_neg h]
    rcases hup : env.upsertError with _ | _ <;>
      simp [writeStats, hup, hpost]

/-- C8 counterexample: a history-only backing-store error against a non-empty
aggregate row returns the stored aggregates with an empty history — a success,
but not the zero-valued defaults the claim demands for any backing-store
error. -/
theorem stats_read_defaults_counterexample :
    (statsGET ⟨false, false, true⟩
        ⟨some ⟨5, 10, 3, 2⟩, [⟨GameResult.win, 1, none⟩]⟩).status = 200 ∧
    (statsGET ⟨false, false, true⟩
        ⟨some ⟨5, 10, 3, 2⟩, [⟨GameResult.win, 1, none⟩]⟩).stats ≠ defaultStats := by
  constructor
  · rfl
  · intro h
    have : (statsGET ⟨false, false, true⟩
        ⟨some ⟨5, 10, 3, 2⟩, [⟨GameResult.win, 1, none⟩]⟩).stats.totalBets = 5 := by
      simp [statsGET, readStats]
    rw [h] at this
    norm_num [defaultStats] at this

/-- C8 (amended): the statistics read always answers 200 with at most 20
history entries, never propagating a backing-store failure; an exception or an
aggregate-row read error yields the zero-valued defaults; an empty store
yields the defaults; otherwise the stored aggregates are returned (zeros when
the singleton row is absent) together with the newest-first history — emptied
when the history read errors, else the newest rows capped at 20. -/
theorem stats_read_masked (env : ReadEnv) (store : Store) :
    (statsGET env store).status = 200 ∧
    (statsGET env store).stats.gameHistory.length ≤ 20 ∧
    ((env.throws = true ∨ env.statsError = true) →
      (statsGET env store).stats = defaultStats) ∧
    (env.throws = false → env.statsError = false →
      ((statsGET env store).stats.totalBets, (statsGET env store).stats.totalWagered,
        (statsGET env store).stats.wins, (statsGET env store).stats.losses) =
        (match store.globalStats with
         | some g => (g.total_bets, g.total_wagered, g.wins, g.losses)
         | none => (0, 0, 0, 0)) ∧
      (statsGET env store).stats.gameHistory =
        (if env.historyError then [] else ((store.history.take 100).map toItem).take 20)) ∧
    (statsGET env { globalStats := none, history := [] }).stats = defaultStats := by
  rcases ht : env.throws with _ | _
  · rcases hs : env.statsError with _ | _
    · rcases hh : env.historyError with _ | _ <;>
        rcases hg : store.globalStats with _ | g <;>
          simp [statsGET, readStats, defaultStats, ht, hs, hh, hg,
            List.take_take, List.length_take]
    · simp [statsGET, readStats, defaultStats, ht, hs]
  · simp [statsGET, readStats, defaultStats, ht]

/-- C8 witness: the amended read behaviour at a concrete error-free
environment and a concrete one-row store. -/
theorem stats_read_masked_witness :
    (statsGET noReadError ⟨some ⟨5, 10, 3, 2⟩, [⟨GameResult.win, 1, none⟩]⟩).status = 200 ∧
    (statsGET noReadError
        ⟨some ⟨5, 10, 3, 2⟩, [⟨GameResult.win, 1, none⟩]⟩).stats.gameHistory.length ≤ 20 ∧
    (((false : Bool) = true ∨ (false : Bool) = true) →
      (statsGET noReadError ⟨some ⟨5, 10, 3, 2⟩, [⟨GameResult.win, 1, none⟩]⟩).stats =
        defaultStats) ∧
    ((false : Bool) = false → (false : Bool) = false →
      ((statsGET noReadError ⟨some ⟨5, 10, 3, 2⟩,
          [⟨GameResult.win, 1, none⟩]⟩).stats.totalBets,
        (statsGET noReadError ⟨some ⟨5, 10, 3, 2⟩,
          [⟨GameResult.win, 1, none⟩]⟩).stats.totalWagered,
        (statsGET noReadError ⟨some ⟨5, 10, 3, 2⟩,
          [⟨GameResult.win, 1, none⟩]⟩).stats.wins,
        (statsGET noReadError ⟨some ⟨5, 10, 3, 2⟩,
          [⟨GameResult.win, 1, none⟩]⟩).stats.losses) =
        (match (⟨some ⟨5, 10, 3, 2⟩, [⟨GameResult.win, 1, none⟩]⟩ : Store).globalStats with
         | some g => (g.total_bets, g.total_wagered, g.wins, g.losses)
         | none => (0, 0, 0, 0)) ∧
      (statsGET noReadError
          ⟨some ⟨5, 10, 3, 2⟩, [⟨GameResult.win, 1, none⟩]⟩).stats.gameHistory =
        (if (false : Bool) = true then []
         else ((([⟨GameResult.win, 1, none⟩] : List HistoryRow).take 100).map toItem).take 20)) ∧
    (statsGET noReadError { globalStats := none, history := [] }).stats = defaultStats :=
  stats_read_masked noReadError ⟨some ⟨5, 10, 3, 2⟩, [⟨GameResult.win, 1, none⟩]⟩

/-- C9 witness: the amended validation rule at a concrete rejected request
(outcome `draw`). -/
theorem stats_write_validation_witness :
    ((statsPOST ⟨some "draw", some 1, none⟩ noWriteError zeroStore).1.status = 400 ↔
      (((some "draw" : Option String) ≠ some "win" ∧
          (some "draw" : Option String) ≠ some "loss") ∨
        (some (1 : ℚ) : Option ℚ) = none ∨ (some (1 : ℚ) : Option ℚ) = some 0)) ∧
    ((statsPOST ⟨some "draw", some 1, none⟩ noWriteError zeroStore).1.status = 400 →
      (statsPOST ⟨some "draw", some 1, none⟩ noWriteError zeroStore).2 = zeroStore) :=
  stats_write_validation ⟨some "draw", some 1, none⟩ noWriteError zeroStore

set_option maxHeartbeats 1000000 in
/-- C10 counterexample: the complete interleaving that runs both reads before
either upsert (the read of writer 1, the read of writer 2, the two history inserts, the
two upserts) loses an update: from the zero state, a win write and a loss
write end with `totalBets = 1`, not the claimed 2. -/
theorem stats_concurrent_counterexample :
    completeSched [true, false, true, false, true, false] ∧
    (runTwoWrites ⟨GameResult.win, 1⟩ ⟨GameResult.loss, 1⟩
        [true, false, true, false, true, false] zeroStore).globalStats =
      some { total_bets := 1, total_wagered := 1, wins := 0, losses := 1 } ∧
    ((runTwoWrites ⟨GameResult.win, 1⟩ ⟨GameResult.loss, 1⟩
        [true, false, true, false, true, false] zeroStore).globalStats).map
      (fun g => (g.total_bets, g.wins, g.losses)) ≠ some (2, 1, 1) := by
  refine ⟨by unfold completeSched; decide, ?_, ?_⟩ <;>
    simp [runTwoWrites, runSched, writerStep, initWriter, readStats, writeStats,
      updatedStats, zeroStore, noReadError, defaultStats, toItem]

/-- C10 (amended): two statistics writes, one win and one loss, starting from
the zero state converge to `totalBets = 2`, `wins = 1`, `losses = 1` in either
arrival order provided they execute serially (the three storage calls of each write
complete before the other write starts); under interleaved execution an update
can be lost. -/
theorem stats_concurrent_serial (a b : ℚ) (sched : List Bool)
    (h : sched = [true, true, true, false, false, false] ∨
      sched = [false, false, false, true, true, true]) :
    ((runTwoWrites ⟨GameResult.win, a⟩ ⟨GameResult.loss, b⟩ sched zeroStore).globalStats).map
      (fun g => (g.total_bets, g.wins, g.losses)) = some (2, 1, 1) := by
  rcases h with h | h <;> subst h <;>
    simp [runTwoWrites, runSched, writerStep, initWriter, readStats, writeStats,
      updatedStats, zeroStore, noReadError, defaultStats, toItem] <;>
    norm_num

/-- C10 witness: the serial win-then-loss execution at amount 1. -/
theorem stats_concurrent_serial_witness :
    ((runTwoWrites ⟨GameResult.win, 1⟩ ⟨GameResult.loss, 1⟩
        [true, true, true, false, false, false] zeroStore).globalStats).map
      (fun g => (g.total_bets, g.wins, g.losses)) = some (2, 1, 1) :=
  stats_concurrent_serial 1 1 _ (Or.inl rfl)

end DoubleOrNothing
